import Mathlib

/-!
Verification of the Fraudlr authentication/session subsystem and relational
data model, as a shallow embedding of the TypeScript source
(`src/lib/auth.ts`, the `/api/auth/*` route handlers, and the Prisma SQL
migration defining `users`, `cases`, `integrations`, `subscriptions`).

Cryptographic primitives (HMAC-SHA256, bcrypt) are idealised: the MAC and
the bcrypt digest are modelled as injective encodings of their inputs, so
that "recompute and compare" behaves as an ideal MAC / ideal password hash.
All other logic is translated line-by-line from the source.
-/

namespace Fraudlr

/-! ## Environment configuration (`process.env`) -/

/-- The process environment as consumed by `src/lib/auth.ts`:
`process.env.JWT_SECRET` (absent or set) and `process.env.NODE_ENV`. -/
structure Env where
  jwtSecret : Option String
  nodeEnv : String
deriving DecidableEq, Repr

/-- The insecure fallback signing secret hard-coded in `src/lib/auth.ts`. -/
def fallbackSecret : String := "your-secret-key-change-in-production"

/-- `const JWT_SECRET = new TextEncoder().encode(process.env.JWT_SECRET ||
"your-secret-key-change-in-production")` — the byte encoding is irrelevant
to the logic, so the secret is kept as a string. An empty configured secret
is falsy in JS and also selects the fallback. -/
def jwtSecretOf (env : Env) : String :=
  match env.jwtSecret with
  | none => fallbackSecret
  | some s => if s = "" then fallbackSecret else s

/-- `const TOKEN_EXPIRY = 60 * 60 * 24 * 7` (seconds; 7 days). -/
def TOKEN_EXPIRY : Nat := 60 * 60 * 24 * 7

/-! ## JWT model (`createToken` / `verifyToken`, jose HS256) -/

/-- `interface UserPayload { userId: string; email: string }`. -/
structure UserPayload where
  userId : String
  email : String
deriving DecidableEq, Repr

/-- The JWT claim set produced by `new SignJWT(payload).setIssuedAt()
.setExpirationTime(...)`: the user payload plus `iat` and `exp`
(seconds since epoch). -/
structure JwtClaims where
  userId : String
  email : String
  iat : Nat
  exp : Nat
deriving DecidableEq, Repr

/-- Idealised HMAC-SHA256: an injective encoding of the key and the signed
claims. Verification recomputes this and compares, exactly as an ideal MAC. -/
def hmacSign (key : String) (c : JwtClaims) : String × JwtClaims := (key, c)

/-- A compact JWS token as received by `verifyToken`: either three valid
base64url segments carrying a claim set and a signature, or a string that
does not parse as a JWT at all. -/
inductive Token where
  | wellFormed (claims : JwtClaims) (sig : String × JwtClaims)
  | malformed (raw : String)
deriving DecidableEq, Repr

/-- `createToken(payload)`: signs `{userId, email, iat: now,
exp: now + TOKEN_EXPIRY}` with HS256 under the module secret. -/
def createToken (secret : String) (now : Nat) (p : UserPayload) : Token :=
  let c : JwtClaims := ⟨p.userId, p.email, now, now + TOKEN_EXPIRY⟩
  Token.wellFormed c (hmacSign secret c)

/-- `verifyToken(token)`: `jwtVerify` checks the structure, the HS256
signature and `exp`; any failure is caught and mapped to `null`.
jose rejects a token whose `exp` is ≤ the current time. -/
def verifyToken (secret : String) (now : Nat) (t : Token) : Option UserPayload :=
  match t with
  | Token.malformed _ => none
  | Token.wellFormed c sig =>
    if sig ≠ hmacSign secret c then none
    else if c.exp ≤ now then none
    else some ⟨c.userId, c.email⟩

/-! ## bcrypt model (`hashPassword` / `comparePasswords`) -/

/-- A bcrypt output string `$2b$cost$salt·digest`: the cost factor and the
salt are embedded in clear, the digest is the one-way function of all
three. The digest is idealised as an injective encoding. -/
structure BcryptHash where
  cost : Nat
  salt : Nat
  digest : Nat × Nat × String
deriving DecidableEq, Repr

/-- Idealised bcrypt core: digest of (cost, salt, password). -/
def bcryptDigest (cost salt : Nat) (password : String) : Nat × Nat × String :=
  (cost, salt, password)

/-- `bcrypt.hash(password, saltRounds)` with the fresh random salt made
explicit as an argument: each call draws a new salt. -/
def bcryptHash (salt cost : Nat) (password : String) : BcryptHash :=
  ⟨cost, salt, bcryptDigest cost salt password⟩

/-- `hashPassword(password)`: bcrypt with `saltRounds = 12` and a fresh
random salt. -/
def hashPassword (salt : Nat) (password : String) : BcryptHash :=
  bcryptHash salt 12 password

/-- `comparePasswords(password, hashedPassword)`: `bcrypt.compare`
re-derives the digest using the cost and salt embedded in the stored hash
and compares. -/
def comparePasswords (password : String) (h : BcryptHash) : Bool :=
  bcryptDigest h.cost h.salt password == h.digest

/-! ## Cookie model (`setAuthCookie` / `clearAuthCookie`) -/

/-- The `sameSite` cookie attribute. -/
inductive SameSite where
  | lax
  | strict
  | noneAttr
deriving DecidableEq, Repr

/-- A `Set-Cookie` record as produced by `cookieStore.set`. -/
structure SetCookie where
  name : String
  value : Token
  httpOnly : Bool
  secure : Bool
  sameSite : SameSite
  maxAge : Nat
  path : String
deriving DecidableEq, Repr

/-- `setAuthCookie(token)`: stores the token under `auth-token` with
`httpOnly: true`, `secure: NODE_ENV === "production"`, `sameSite: "lax"`,
`maxAge: TOKEN_EXPIRY`, `path: "/"`. -/
def setAuthCookie (env : Env) (token : Token) : SetCookie :=
  { name := "auth-token"
    value := token
    httpOnly := true
    secure := env.nodeEnv == "production"
    sameSite := SameSite.lax
    maxAge := TOKEN_EXPIRY
    path := "/" }

/-- `getCurrentUser()`: reads the `auth-token` cookie (modelled as the
optional token); absent cookie or failed verification both yield `null`. -/
def getCurrentUser (secret : String) (now : Nat) (cookie : Option Token) :
    Option UserPayload :=
  match cookie with
  | none => none
  | some t => verifyToken secret now t

/-! ## Relational data model (Prisma migration) -/

/-- `SubscriptionTier` enum: `FREE`, `STANDARD`, `PRO`. -/
inductive SubscriptionTier where
  | FREE
  | STANDARD
  | PRO
deriving DecidableEq, Repr

/-- `CaseStatus` enum. -/
inductive CaseStatus where
  | PENDING
  | PROCESSING
  | COMPLETED
  | FAILED
deriving DecidableEq, Repr

/-- `IntegrationType` enum. -/
inductive IntegrationType where
  | API
  | SQL
deriving DecidableEq, Repr

/-- A row of the `users` table. -/
structure UserRow where
  id : String
  email : String
  password : BcryptHash
  name : Option String
  createdAt : Nat
deriving DecidableEq, Repr

/-- A row of the `cases` table (`userId` is the FK with CASCADE delete). -/
structure CaseRow where
  id : String
  name : String
  description : Option String
  status : CaseStatus
  fileUrl : Option String
  userId : String
deriving DecidableEq, Repr

/-- A row of the `integrations` table (`userId` FK, CASCADE delete). -/
structure IntegrationRow where
  id : String
  name : String
  type : IntegrationType
  isActive : Bool
  userId : String
deriving DecidableEq, Repr

/-- A row of the `subscriptions` table (`userId` FK, UNIQUE, CASCADE). -/
structure SubscriptionRow where
  id : String
  tier : SubscriptionTier
  isActive : Bool
  csvUploadsThisMonth : Nat
  userId : String
deriving DecidableEq, Repr

/-- The database: the four tables of the migration. -/
structure DB where
  users : List UserRow
  cases : List CaseRow
  integrations : List IntegrationRow
  subscriptions : List SubscriptionRow
deriving DecidableEq, Repr

/-- `prisma.user.findUnique({where: {email}})`. -/
def findUserByEmail (db : DB) (email : String) : Option UserRow :=
  db.users.find? (fun u => u.email == email)

/-- `prisma.user.findUnique({where: {id}})`. -/
def findUserById (db : DB) (id : String) : Option UserRow :=
  db.users.find? (fun u => u.id == id)

/-- The unique subscription attached to a user (`subscriptions_userId_key`). -/
def findSubByUserId (db : DB) (userId : String) : Option SubscriptionRow :=
  db.subscriptions.find? (fun s => s.userId == userId)

/-- Referential integrity: every `cases`, `integrations` and
`subscriptions` row's `userId` references an existing `users` row. -/
def refIntegrity (db : DB) : Prop :=
  (∀ c ∈ db.cases, ∃ u ∈ db.users, u.id = c.userId) ∧
  (∀ i ∈ db.integrations, ∃ u ∈ db.users, u.id = i.userId) ∧
  (∀ s ∈ db.subscriptions, ∃ u ∈ db.users, u.id = s.userId)

/-- Deleting a `users` row: `ON DELETE CASCADE` on the three FKs removes
every owned case, integration and subscription in the same statement. -/
def deleteUser (db : DB) (uid : String) : DB :=
  { users := db.users.filter (fun u => u.id ≠ uid)
    cases := db.cases.filter (fun c => c.userId ≠ uid)
    integrations := db.integrations.filter (fun i => i.userId ≠ uid)
    subscriptions := db.subscriptions.filter (fun s => s.userId ≠ uid) }

/-! ## Email format check (signup route regex) -/

/-- A character matched by `\s` in the signup regex (ASCII whitespace). -/
def isWsChar (c : Char) : Bool :=
  c == ' ' || c == '\t' || c == '\n' || c == '\r' || c == '\x0b' || c == '\x0c'

/-- A character matched by `[^\s@]`. -/
def okEmailChar (c : Char) : Bool :=
  !(isWsChar c) && c != '@'

/-- `/^[^\s@]+@[^\s@]+\.[^\s@]+$/`: exactly one `@`; the local part is a
nonempty run of `[^\s@]`; the domain is a nonempty run of `[^\s@]`
containing a `.` that is neither its first nor its last character
(so the domain splits as `X "." Y` with `X`, `Y` nonempty). -/
def emailFormatOk (email : String) : Bool :=
  match email.toList.splitOn '@' with
  | [localPart, domain] =>
    !localPart.isEmpty && localPart.all okEmailChar &&
    domain.all okEmailChar && ((domain.drop 1).dropLast.contains '.')
  | _ => false

/-- `email.toLowerCase()`: lower-cases every character (ASCII range, which
covers the alphabet the handlers compare on). -/
def toLowerJS (s : String) : String := String.mk (s.data.map Char.toLower)

/-! ## HTTP responses -/

/-- The JSON `user` object returned by signup and login. -/
structure UserJson where
  id : String
  email : String
  name : Option String
deriving DecidableEq, Repr

/-- A signup/login response: HTTP status, optional `error` string,
optional `message`, optional `user` object. -/
structure AuthResponse where
  status : Nat
  error : Option String
  message : Option String
  user : Option UserJson
deriving DecidableEq, Repr

/-- The subscription summary inside `GET /auth/me`'s response. -/
structure SubscriptionJson where
  tier : SubscriptionTier
  csvUploadsThisMonth : Nat
  isActive : Bool
deriving DecidableEq, Repr

/-- The `user` object of `GET /auth/me`. -/
structure MeUserJson where
  id : String
  email : String
  name : Option String
  createdAt : Nat
  subscription : Option SubscriptionJson
deriving DecidableEq, Repr

/-- A `GET /auth/me` response. -/
structure MeResponse where
  status : Nat
  error : Option String
  user : Option MeUserJson
deriving DecidableEq, Repr

/-! ## `POST /api/auth/signup` -/

/-- The parsed signup request body `{name?, email, password}`; a missing
field is `none`. -/
structure SignupBody where
  name : Option String
  email : Option String
  password : Option String
deriving DecidableEq, Repr

/-- JS falsiness of an optional string field: missing or empty. -/
def strFalsy : Option String → Bool
  | none => true
  | some s => s == ""

/-- `name: name || null` in the create call. -/
def normName : Option String → Option String
  | none => none
  | some s => if s = "" then none else some s

/-- The atomic nested create `prisma.user.create({data: {..., subscription:
{create: ...}}})`: one storage transaction inserting the `users` row and
its `subscriptions` row together. It fails as a whole (no row persists) if
a unique constraint (`users_pkey`, `users_email_key`,
`subscriptions_userId_key`) is violated. -/
def tryCreateUserWithSub (db : DB) (u : UserRow) (s : SubscriptionRow) :
    Except String DB :=
  if db.users.any (fun w => w.id == u.id) then Except.error "users_pkey"
  else if db.users.any (fun w => w.email == u.email) then
    Except.error "users_email_key"
  else if db.subscriptions.any (fun w => w.userId == s.userId) then
    Except.error "subscriptions_userId_key"
  else Except.ok
    { db with
      users := db.users ++ [u]
      subscriptions := db.subscriptions ++ [s] }

/-- The result of a signup request: the HTTP response, the database after
the request, and the session cookie set (if any). -/
structure SignupResult where
  resp : AuthResponse
  db : DB
  cookie : Option SetCookie
deriving Repr

/-- The signup POST handler. Nondeterministic inputs made explicit:
`newId` is the id Prisma generates for the new row, `salt` the fresh
bcrypt salt, `now` the current time. -/
def signup (env : Env) (db : DB) (newId : String) (salt : Nat) (now : Nat)
    (b : SignupBody) : SignupResult :=
  if strFalsy b.email || strFalsy b.password then
    ⟨⟨400, some "Email and password are required", none, none⟩, db, none⟩
  else
    let email := b.email.getD ""
    let password := b.password.getD ""
    if ¬ emailFormatOk email then
      ⟨⟨400, some "Invalid email format", none, none⟩, db, none⟩
    else if password.length < 8 then
      ⟨⟨400, some "Password must be at least 8 characters", none, none⟩, db, none⟩
    else if (findUserByEmail db (toLowerJS email)).isSome then
      ⟨⟨409, some "An account with this email already exists", none, none⟩, db, none⟩
    else
      let hashed := hashPassword salt password
      let u : UserRow :=
        ⟨newId, toLowerJS email, hashed, normName b.name, now⟩
      let s : SubscriptionRow :=
        ⟨newId ++ "-sub", SubscriptionTier.FREE, true, 0, newId⟩
      match tryCreateUserWithSub db u s with
      | Except.error _ =>
        ⟨⟨500, some "An error occurred during registration", none, none⟩, db, none⟩
      | Except.ok db' =>
        let token := createToken (jwtSecretOf env) now ⟨u.id, u.email⟩
        ⟨⟨201, none, some "Account created successfully",
          some ⟨u.id, u.email, u.name⟩⟩, db', some (setAuthCookie env token)⟩

/-! ## `POST /api/auth/login` -/

/-- The parsed login request body `{email, password}`. -/
structure LoginBody where
  email : Option String
  password : Option String
deriving DecidableEq, Repr

/-- The login POST handler: validates presence, looks up the user by
lowercased email, verifies the password, and on success issues a token and
sets the session cookie. Absent account and wrong password take the same
generic 401 branch. -/
def login (env : Env) (db : DB) (now : Nat) (b : LoginBody) :
    AuthResponse × Option SetCookie :=
  if strFalsy b.email || strFalsy b.password then
    (⟨400, some "Email and password are required", none, none⟩, none)
  else
    let email := b.email.getD ""
    let password := b.password.getD ""
    match findUserByEmail db (toLowerJS email) with
    | none =>
      (⟨401, some "Invalid email or password", none, none⟩, none)
    | some user =>
      if ¬ comparePasswords password user.password then
        (⟨401, some "Invalid email or password", none, none⟩, none)
      else
        let token := createToken (jwtSecretOf env) now ⟨user.id, user.email⟩
        (⟨200, none, some "Login successful",
          some ⟨user.id, user.email, user.name⟩⟩, some (setAuthCookie env token))

/-! ## `GET /api/auth/me` -/

/-- The me GET handler: resolves identity from the cookie via
`getCurrentUser`, then re-fetches the account and its subscription summary
from the database. -/
def getMe (env : Env) (db : DB) (now : Nat) (cookie : Option Token) :
    MeResponse :=
  match getCurrentUser (jwtSecretOf env) now cookie with
  | none => ⟨401, some "Not authenticated", none⟩
  | some authUser =>
    match findUserById db authUser.userId with
    | none => ⟨404, some "User not found", none⟩
    | some u =>
      let sub := (findSubByUserId db u.id).map
        (fun s => SubscriptionJson.mk s.tier s.csvUploadsThisMonth s.isActive)
      ⟨200, none, some ⟨u.id, u.email, u.name, u.createdAt, sub⟩⟩

/-! ## Invariants and fixtures -/

/-- Every account has a subscription (the state the registration flow is
meant to preserve: no Account-without-Subscription). -/
def accountHasSub (db : DB) : Prop :=
  ∀ u ∈ db.users, ∃ s ∈ db.subscriptions, s.userId = u.id

/-- A test environment (development, configured secret). -/
def envTest : Env := ⟨some "sekrit", "testing"⟩

/-- The empty database. -/
def dbEmpty : DB := ⟨[], [], [], []⟩

/-- A well-formed signup request body. -/
def bodyA : SignupBody := ⟨some "Al", some "A@b.com", some "longenough1"⟩

/-- The result of registering `bodyA` against the empty database. -/
def resA : SignupResult := signup envTest dbEmpty "u1" 5 100 bodyA

/-- A sample user row. -/
def userA : UserRow := ⟨"u1", "a@b.com", hashPassword 5 "longenough1", some "Al", 100⟩

/-- A second sample user row. -/
def userB : UserRow := ⟨"u2", "c@d.com", hashPassword 7 "password123", none, 150⟩

/-- A populated database: two accounts, each owning rows in every table. -/
def dbSample : DB :=
  ⟨[userA, userB],
   [⟨"case1", "Q1 audit", none, CaseStatus.PENDING, none, "u1"⟩,
    ⟨"case2", "Q2 audit", some "d", CaseStatus.COMPLETED, some "f.csv", "u2"⟩],
   [⟨"int1", "ERP", IntegrationType.API, true, "u1"⟩,
    ⟨"int2", "Warehouse", IntegrationType.SQL, false, "u2"⟩],
   [⟨"sub1", SubscriptionTier.FREE, true, 0, "u1"⟩,
    ⟨"sub2", SubscriptionTier.PRO, true, 3, "u2"⟩]⟩

/-! ## Claim theorems -/

/-- C1: verifying a freshly issued token returns the identity's claims
unchanged at any instant strictly before the expiration instant
(issuance + 7 days), and the invalid sentinel (`none`) at any instant at
or after it. -/
theorem c1_token_roundtrip (secret : String) (p : UserPayload)
    (tIssue tCheck : Nat) :
    verifyToken secret tCheck (createToken secret tIssue p) =
      if tCheck < tIssue + TOKEN_EXPIRY then some p else none := by
  by_cases h : tCheck < tIssue + TOKEN_EXPIRY
  · simp [verifyToken, createToken, h, Nat.not_le.mpr h]
  · simp [verifyToken, createToken, h, Nat.not_lt.mp h]

/-- C2: hashing the same password with two distinct fresh salts yields two
distinct secrets, and the password verifies against both. -/
theorem c2_hash_verify_salted (password : String) (s1 s2 : Nat)
    (hne : s1 ≠ s2) :
    hashPassword s1 password ≠ hashPassword s2 password ∧
    comparePasswords password (hashPassword s1 password) = true ∧
    comparePasswords password (hashPassword s2 password) = true := by
  refine ⟨fun h => hne (congrArg BcryptHash.salt h), ?_, ?_⟩ <;>
    simp [comparePasswords, hashPassword, bcryptHash, bcryptDigest]

/-- C2 witness: concrete salts 0 ≠ 1 and password "pw". -/
theorem c2_hash_verify_salted_witness :
    (0 : Nat) ≠ 1 ∧
    (hashPassword 0 "pw" ≠ hashPassword 1 "pw" ∧
     comparePasswords "pw" (hashPassword 0 "pw") = true ∧
     comparePasswords "pw" (hashPassword 1 "pw") = true) :=
  ⟨by decide, c2_hash_verify_salted "pw" 0 1 (by decide)⟩

/-- C5: `verifyToken` is a total function returning the same invalid
sentinel `none` on a malformed token, on a signature mismatch, and on an
expired token: the three failure modes are indistinguishable. -/
theorem c5_verify_uniform_failure (secret : String) (now : Nat)
    (raw : String) (c : JwtClaims) (sig : String × JwtClaims) :
    verifyToken secret now (Token.malformed raw) = none ∧
    (sig ≠ hmacSign secret c →
      verifyToken secret now (Token.wellFormed c sig) = none) ∧
    (c.exp ≤ now →
      verifyToken secret now (Token.wellFormed c sig) = none) := by
  refine ⟨rfl, fun hsig => ?_, fun hexp => ?_⟩
  · simp [verifyToken, hsig]
  · by_cases hsig : sig = hmacSign secret c <;> simp [verifyToken, hsig, hexp]

/-- C5 witness: a tampered signature and an expired claim set. -/
theorem c5_verify_uniform_failure_witness :
    verifyToken "k" 10 (Token.malformed "xx") = none ∧
    (("bad", (⟨"u", "e", 0, 99⟩ : JwtClaims)) ≠
        hmacSign "k" ⟨"u", "e", 0, 99⟩ ∧
      verifyToken "k" 10
        (Token.wellFormed ⟨"u", "e", 0, 99⟩ ("bad", ⟨"u", "e", 0, 99⟩)) = none) ∧
    ((⟨"u", "e", 0, 5⟩ : JwtClaims).exp ≤ 10 ∧
      verifyToken "k" 10
        (Token.wellFormed ⟨"u", "e", 0, 5⟩ (hmacSign "k" ⟨"u", "e", 0, 5⟩)) = none) := by
  refine ⟨(c5_verify_uniform_failure "k" 10 "xx" ⟨"u", "e", 0, 99⟩
      ("bad", ⟨"u", "e", 0, 99⟩)).1, ⟨by decide, ?_⟩, ⟨by decide, ?_⟩⟩
  · exact (c5_verify_uniform_failure "k" 10 "xx" ⟨"u", "e", 0, 99⟩
      ("bad", ⟨"u", "e", 0, 99⟩)).2.1 (by decide)
  · exact (c5_verify_uniform_failure "k" 10 "xx" ⟨"u", "e", 0, 5⟩
      (hmacSign "k" ⟨"u", "e", 0, 5⟩)).2.2 (by decide)

/-- C7: deleting an account cascades: afterwards no case, integration or
subscription of that account remains, the account itself is gone, and
referential integrity (no orphan rows) is preserved. -/
theorem c7_delete_cascade (db : DB) (uid : String) :
    (∀ c ∈ (deleteUser db uid).cases, c.userId ≠ uid) ∧
    (∀ i ∈ (deleteUser db uid).integrations, i.userId ≠ uid) ∧
    (∀ s ∈ (deleteUser db uid).subscriptions, s.userId ≠ uid) ∧
    (∀ u ∈ (deleteUser db uid).users, u.id ≠ uid) ∧
    (refIntegrity db → refIntegrity (deleteUser db uid)) := by
  refine ⟨?_, ?_, ?_, ?_, ?_⟩
  · intro c hc
    exact of_decide_eq_true (List.mem_filter.mp hc).2
  · intro i hi
    exact of_decide_eq_true (List.mem_filter.mp hi).2
  · intro s hs
    exact of_decide_eq_true (List.mem_filter.mp hs).2
  · intro u hu
    exact of_decide_eq_true (List.mem_filter.mp hu).2
  · rintro ⟨hc, hi, hs⟩
    refine ⟨?_, ?_, ?_⟩
    · intro c hmem
      have h1 := List.mem_filter.mp hmem
      obtain ⟨u, hu, hid⟩ := hc c h1.1
      refine ⟨u, List.mem_filter.mpr ⟨hu, ?_⟩, hid⟩
      rw [hid]
      exact h1.2
    · intro i hmem
      have h1 := List.mem_filter.mp hmem
      obtain ⟨u, hu, hid⟩ := hi i h1.1
      refine ⟨u, List.mem_filter.mpr ⟨hu, ?_⟩, hid⟩
      rw [hid]
      exact h1.2
    · intro s hmem
      have h1 := List.mem_filter.mp hmem
      obtain ⟨u, hu, hid⟩ := hs s h1.1
      refine ⟨u, List.mem_filter.mpr ⟨hu, ?_⟩, hid⟩
      rw [hid]
      exact h1.2

/-- C7 witness: deleting `u1` from the populated sample database. -/
theorem c7_delete_cascade_witness :
    refIntegrity dbSample ∧ refIntegrity (deleteUser dbSample "u1") ∧
    (∀ s ∈ (deleteUser dbSample "u1").subscriptions, s.userId ≠ "u1") :=
  ⟨by unfold refIntegrity; decide,
    (c7_delete_cascade dbSample "u1").2.2.2.2 (by unfold refIntegrity; decide),
    (c7_delete_cascade dbSample "u1").2.2.1⟩

/-- C8: the session cookie is HTTP-only, same-site-lax, secure exactly in
production, has max-age equal to the fixed 7-day token lifetime (the same
`TOKEN_EXPIRY` that `createToken` adds to the issuance instant), and is
scoped to the whole site path. -/
theorem c8_cookie_attributes (env : Env) (t : Token) :
    (setAuthCookie env t).name = "auth-token" ∧
    (setAuthCookie env t).value = t ∧
    (setAuthCookie env t).httpOnly = true ∧
    (setAuthCookie env t).sameSite = SameSite.lax ∧
    (setAuthCookie env t).secure = (env.nodeEnv == "production") ∧
    (setAuthCookie env t).maxAge = TOKEN_EXPIRY ∧
    TOKEN_EXPIRY = 60 * 60 * 24 * 7 ∧
    (setAuthCookie env t).path = "/" ∧
    (∀ secret now p, createToken secret now p =
      Token.wellFormed ⟨p.userId, p.email, now, now + (setAuthCookie env t).maxAge⟩
        (hmacSign secret ⟨p.userId, p.email, now, now + (setAuthCookie env t).maxAge⟩)) :=
  ⟨rfl, rfl, rfl, rfl, rfl, rfl, rfl, rfl, fun _ _ _ => rfl⟩

/-- C9 counterexample: in a production run with no configured secret, the
signing key is the insecure fallback default — the code never conditions
the fallback on the environment. -/
theorem c9_fallback_in_production :
    (⟨none, "production"⟩ : Env).nodeEnv = "production" ∧
    jwtSecretOf ⟨none, "production"⟩ = fallbackSecret :=
  ⟨rfl, rfl⟩

/-- C9 (amended): the signing key equals the configured secret whenever a
nonempty one is configured; when none (or an empty one) is configured, the
fallback default is used, regardless of `NODE_ENV`, production included. -/
theorem c9_secret_selection (env : Env) (s : String) :
    (env.jwtSecret = some s → s ≠ "" → jwtSecretOf env = s) ∧
    (env.jwtSecret = none ∨ env.jwtSecret = some "" →
      jwtSecretOf env = fallbackSecret) := by
  constructor
  · intro hset hne
    simp [jwtSecretOf, hset, hne]
  · rintro (hnone | hempty)
    · simp [jwtSecretOf, hnone]
    · simp [jwtSecretOf, hempty]

/-- C9 (amended) witness: configured nonempty secret wins; absent secret
falls back. -/
theorem c9_secret_selection_witness :
    ((⟨some "sekrit", "production"⟩ : Env).jwtSecret = some "sekrit" ∧
      "sekrit" ≠ "" ∧ jwtSecretOf ⟨some "sekrit", "production"⟩ = "sekrit") ∧
    (((⟨none, "production"⟩ : Env).jwtSecret = none ∨
        (⟨none, "production"⟩ : Env).jwtSecret = some "") ∧
      jwtSecretOf ⟨none, "production"⟩ = fallbackSecret) :=
  ⟨⟨rfl, by decide,
    (c9_secret_selection ⟨some "sekrit", "production"⟩ "sekrit").1 rfl (by decide)⟩,
   ⟨Or.inl rfl,
    (c9_secret_selection ⟨none, "production"⟩ "sekrit").2 (Or.inl rfl)⟩⟩

/-- C4: a login with a registered email but wrong password and a login
with a nonexistent email produce exactly the same response — status 401
with the one generic message — and neither sets a cookie: the two failure
causes are indistinguishable to the caller. -/
theorem c4_login_uniform_401 (env : Env) (db : DB) (now1 now2 : Nat)
    (b1 b2 : LoginBody) (u : UserRow)
    (h1e : strFalsy b1.email = false) (h1p : strFalsy b1.password = false)
    (hfind : findUserByEmail db (toLowerJS (b1.email.getD "")) = some u)
    (hwrong : comparePasswords (b1.password.getD "") u.password = false)
    (h2e : strFalsy b2.email = false) (h2p : strFalsy b2.password = false)
    (hnone : findUserByEmail db (toLowerJS (b2.email.getD "")) = none) :
    login env db now1 b1 = login env db now2 b2 ∧
    login env db now1 b1 =
      (⟨401, some "Invalid email or password", none, none⟩, none) := by
  have e1 : login env db now1 b1 =
      (⟨401, some "Invalid email or password", none, none⟩, none) := by
    simp [login, h1e, h1p, hfind, hwrong]
  have e2 : login env db now2 b2 =
      (⟨401, some "Invalid email or password", none, none⟩, none) := by
    simp [login, h2e, h2p, hnone]
  exact ⟨e1.trans e2.symm, e1⟩

/-- C4 witness: wrong password for the registered `a@b.com` versus the
unregistered `zz@b.com`, against the sample database. -/
theorem c4_login_uniform_401_witness :
    strFalsy (some "a@b.com") = false ∧
    findUserByEmail dbSample "a@b.com" = some userA ∧
    comparePasswords "wrongpass" userA.password = false ∧
    findUserByEmail dbSample "zz@b.com" = none ∧
    login envTest dbSample 300 ⟨some "a@b.com", some "wrongpass"⟩ =
      login envTest dbSample 400 ⟨some "zz@b.com", some "whatever1"⟩ ∧
    login envTest dbSample 300 ⟨some "a@b.com", some "wrongpass"⟩ =
      (⟨401, some "Invalid email or password", none, none⟩, none) := by
  refine ⟨by decide, by decide, by decide, by decide, ?_, ?_⟩
  · exact (c4_login_uniform_401 envTest dbSample 300 400
      ⟨some "a@b.com", some "wrongpass"⟩ ⟨some "zz@b.com", some "whatever1"⟩
      userA (by decide) (by decide) (by decide) (by decide)
      (by decide) (by decide) (by decide)).1
  · exact (c4_login_uniform_401 envTest dbSample 300 400
      ⟨some "a@b.com", some "wrongpass"⟩ ⟨some "zz@b.com", some "whatever1"⟩
      userA (by decide) (by decide) (by decide) (by decide)
      (by decide) (by decide) (by decide)).2

/-- C6: `GET /auth/me` returns 401 when the cookie is absent or its token
fails verification, 404 (a distinct response) when the token verifies but
the account row is gone, and 200 with id, email, name, createdAt and the
subscription summary when both succeed. -/
theorem c6_me_route (env : Env) (db : DB) (now : Nat) :
    getMe env db now none = ⟨401, some "Not authenticated", none⟩ ∧
    (∀ t, verifyToken (jwtSecretOf env) now t = none →
      getMe env db now (some t) = ⟨401, some "Not authenticated", none⟩) ∧
    (∀ t p, verifyToken (jwtSecretOf env) now t = some p →
      findUserById db p.userId = none →
      getMe env db now (some t) = ⟨404, some "User not found", none⟩) ∧
    (∀ t p u, verifyToken (jwtSecretOf env) now t = some p →
      findUserById db p.userId = some u →
      getMe env db now (some t) =
        ⟨200, none, some ⟨u.id, u.email, u.name, u.createdAt,
          (findSubByUserId db u.id).map
            (fun s => SubscriptionJson.mk s.tier s.csvUploadsThisMonth s.isActive)⟩⟩) ∧
    (⟨404, some "User not found", none⟩ : MeResponse) ≠
      ⟨401, some "Not authenticated", none⟩ := by
  refine ⟨rfl, fun t ht => ?_, fun t p ht hu => ?_, fun t p u ht hu => ?_,
    by decide⟩
  · simp [getMe, getCurrentUser, ht]
  · simp [getMe, getCurrentUser, ht, hu]
  · simp [getMe, getCurrentUser, ht, hu]

/-- A valid token for the sample account `u1`. -/
def goodTok : Token := createToken (jwtSecretOf envTest) 100 ⟨"u1", "a@b.com"⟩

/-- A valid token whose account does not exist in `dbSample`. -/
def ghostTok : Token := createToken (jwtSecretOf envTest) 100 ⟨"ghost", "g@x.com"⟩

/-- C6 witness: missing cookie, valid-token-but-missing-account, and the
fully successful lookup, against the sample database. -/
theorem c6_me_route_witness :
    getMe envTest dbSample 300 none = ⟨401, some "Not authenticated", none⟩ ∧
    (verifyToken (jwtSecretOf envTest) 300 ghostTok = some ⟨"ghost", "g@x.com"⟩ ∧
      findUserById dbSample "ghost" = none ∧
      getMe envTest dbSample 300 (some ghostTok) =
        ⟨404, some "User not found", none⟩) ∧
    (verifyToken (jwtSecretOf envTest) 300 goodTok = some ⟨"u1", "a@b.com"⟩ ∧
      findUserById dbSample "u1" = some userA ∧
      getMe envTest dbSample 300 (some goodTok) =
        ⟨200, none, some ⟨"u1", "a@b.com", some "Al", 100,
          some ⟨SubscriptionTier.FREE, 0, true⟩⟩⟩) := by
  refine ⟨(c6_me_route envTest dbSample 300).1, ⟨by decide, by decide, ?_⟩,
    ⟨by decide, by decide, ?_⟩⟩
  · exact (c6_me_route envTest dbSample 300).2.2.1 ghostTok ⟨"ghost", "g@x.com"⟩
      (by decide) (by decide)
  · have h := (c6_me_route envTest dbSample 300).2.2.2.1 goodTok
      ⟨"u1", "a@b.com"⟩ userA (by decide) (by decide)
    exact h.trans (by decide)

/-- Helper: a signup that does not answer 201 leaves the database exactly
as it was — every validation failure and the failed transaction return the
original state. -/
lemma signup_db_of_ne_201 (env : Env) (db : DB) (newId : String)
    (salt now : Nat) (b : SignupBody) :
    (signup env db newId salt now b).resp.status ≠ 201 →
    (signup env db newId salt now b).db = db := by
  unfold signup
  split
  · intro _; rfl
  · dsimp only
    split
    · intro _; rfl
    · split
      · intro _; rfl
      · split
        · intro _; rfl
        · split
          · intro _; rfl
          · intro h; exact absurd rfl h

/-- Helper: a 201 signup answer means the database is the old one plus
exactly the new user row and its FREE zero-usage subscription row. -/
lemma signup_db_of_201 (env : Env) (db : DB) (newId : String)
    (salt now : Nat) (b : SignupBody) :
    (signup env db newId salt now b).resp.status = 201 →
    (signup env db newId salt now b).db =
      ⟨db.users ++
          [⟨newId, toLowerJS (b.email.getD ""),
            hashPassword salt (b.password.getD ""), normName b.name, now⟩],
        db.cases, db.integrations,
        db.subscriptions ++
          [⟨newId ++ "-sub", SubscriptionTier.FREE, true, 0, newId⟩]⟩ := by
  unfold signup
  split
  · intro h; simp at h
  · dsimp only
    split
    · intro h; simp at h
    · split
      · intro h; simp at h
      · split
        · intro h; simp at h
        · split
          · intro h; simp at h
          · rename_i db' heq
            intro _
            unfold tryCreateUserWithSub at heq
            split at heq
            · exact absurd heq (by simp)
            · split at heq
              · exact absurd heq (by simp)
              · split at heq
                · exact absurd heq (by simp)
                · cases heq
                  rfl

/-- C3: registration is atomic — any non-201 outcome leaves the database
untouched (no Account-without-Subscription is ever persisted), a 201
outcome inserts the account together with its FREE zero-usage subscription,
the account-has-subscription invariant is preserved, and re-registering an
already registered normalized email (on an otherwise valid request)
answers 409 and changes nothing. -/
theorem c3_signup_atomic (env : Env) (db : DB) (newId : String)
    (salt now : Nat) (b : SignupBody) :
    ((signup env db newId salt now b).resp.status ≠ 201 →
      (signup env db newId salt now b).db = db) ∧
    ((signup env db newId salt now b).resp.status = 201 →
      (∃ u ∈ (signup env db newId salt now b).db.users,
        u.id = newId ∧ u.email = toLowerJS (b.email.getD "")) ∧
      (∃ s ∈ (signup env db newId salt now b).db.subscriptions,
        s.userId = newId ∧ s.tier = SubscriptionTier.FREE ∧
          s.csvUploadsThisMonth = 0)) ∧
    (accountHasSub db → accountHasSub (signup env db newId salt now b).db) ∧
    (strFalsy b.email = false → strFalsy b.password = false →
      emailFormatOk (b.email.getD "") = true →
      ¬ (b.password.getD "").length < 8 →
      (findUserByEmail db (toLowerJS (b.email.getD ""))).isSome = true →
      (signup env db newId salt now b).resp =
        ⟨409, some "An account with this email already exists", none, none⟩ ∧
      (signup env db newId salt now b).db = db) := by
  refine ⟨signup_db_of_ne_201 env db newId salt now b, ?_, ?_, ?_⟩
  · intro h
    rw [signup_db_of_201 env db newId salt now b h]
    constructor
    · exact ⟨_, List.mem_append_right _ (List.mem_singleton_self _), rfl, rfl⟩
    · exact ⟨_, List.mem_append_right _ (List.mem_singleton_self _), rfl, rfl, rfl⟩
  · intro hinv
    by_cases h : (signup env db newId salt now b).resp.status = 201
    · rw [signup_db_of_201 env db newId salt now b h]
      intro u hu
      rcases List.mem_append.mp hu with hold | hnew
      · obtain ⟨s, hs, hsid⟩ := hinv u hold
        exact ⟨s, List.mem_append_left _ hs, hsid⟩
      · rcases List.mem_singleton.mp hnew with rfl
        exact ⟨_, List.mem_append_right _ (List.mem_singleton_self _), rfl⟩
    · rw [signup_db_of_ne_201 env db newId salt now b h]
      exact hinv
  · intro he hp hfmt hlen hdup
    constructor
    · simp [signup, he, hp, hfmt, hlen, hdup]
    · simp [signup, he, hp, hfmt, hlen, hdup]

/-- C3 witness: registering `bodyA` on the empty database succeeds and
creates both rows; repeating it on the resulting state answers 409 and
leaves the state unchanged; a too-short password changes nothing. -/
theorem c3_signup_atomic_witness :
    resA.resp.status = 201 ∧
    ((∃ u ∈ resA.db.users, u.id = "u1" ∧ u.email = toLowerJS "A@b.com") ∧
      (∃ s ∈ resA.db.subscriptions, s.userId = "u1" ∧
        s.tier = SubscriptionTier.FREE ∧ s.csvUploadsThisMonth = 0)) ∧
    accountHasSub resA.db ∧
    ((signup envTest resA.db "u2" 6 200 bodyA).resp =
        ⟨409, some "An account with this email already exists", none, none⟩ ∧
      (signup envTest resA.db "u2" 6 200 bodyA).db = resA.db) ∧
    (signup envTest dbEmpty "u3" 7 300 ⟨none, some "a@b.com", some "short"⟩).db
      = dbEmpty := by
  refine ⟨by decide, ?_, ?_, ?_, ?_⟩
  · exact (c3_signup_atomic envTest dbEmpty "u1" 5 100 bodyA).2.1 (by decide)
  · exact (c3_signup_atomic envTest dbEmpty "u1" 5 100 bodyA).2.2.1
      (by unfold accountHasSub; decide)
  · exact (c3_signup_atomic envTest resA.db "u2" 6 200 bodyA).2.2.2
      (by decide) (by decide) (by decide) (by decide) (by decide)
  · exact (c3_signup_atomic envTest dbEmpty "u3" 7 300
      ⟨none, some "a@b.com", some "short"⟩).1 (by decide)

/-- C10: signup validations run in a fixed order and the response reports
the first failing check: missing fields beat everything; a malformed email
answers 400 even when that email is already registered; a short password
answers 400 even when the email is already registered (the 409 duplicate
check is never reached). -/
theorem c10_validation_order (env : Env) (db : DB) (newId : String)
    (salt now : Nat) (b : SignupBody) :
    ((strFalsy b.email || strFalsy b.password) = true →
      (signup env db newId salt now b).resp =
        ⟨400, some "Email and password are required", none, none⟩) ∧
    (strFalsy b.email = false → strFalsy b.password = false →
      emailFormatOk (b.email.getD "") = false →
      (findUserByEmail db (toLowerJS (b.email.getD ""))).isSome = true →
      (signup env db newId salt now b).resp =
        ⟨400, some "Invalid email format", none, none⟩) ∧
    (strFalsy b.email = false → strFalsy b.password = false →
      emailFormatOk (b.email.getD "") = true →
      (b.password.getD "").length < 8 →
      (findUserByEmail db (toLowerJS (b.email.getD ""))).isSome = true →
      (signup env db newId salt now b).resp =
        ⟨400, some "Password must be at least 8 characters", none, none⟩) := by
  refine ⟨fun h => ?_, fun he hp hfmt _ => ?_, fun he hp hfmt hlen _ => ?_⟩
  · simp [signup, h]
  · simp [signup, he, hp, hfmt]
  · simp [signup, he, hp, hfmt, hlen]

/-- A user row whose stored email would fail the signup format check. -/
def userM : UserRow := ⟨"u9", "bademail", hashPassword 9 "whatever99", none, 50⟩

/-- A database registering the malformed email `bademail`. -/
def dbM : DB :=
  ⟨[userM], [], [], [⟨"sub9", SubscriptionTier.FREE, true, 0, "u9"⟩]⟩

/-- C10 witness: a short password with an already-registered email gets
400 (not 409); a malformed already-registered email gets 400 (not 409);
missing email gets the missing-fields 400. -/
theorem c10_validation_order_witness :
    (findUserByEmail dbSample (toLowerJS "a@b.com")).isSome = true ∧
    (signup envTest dbSample "u9" 9 500 ⟨none, some "a@b.com", some "short"⟩).resp
      = ⟨400, some "Password must be at least 8 characters", none, none⟩ ∧
    (findUserByEmail dbM (toLowerJS "bademail")).isSome = true ∧
    (signup envTest dbM "u9" 9 500 ⟨none, some "bademail", some "longenough1"⟩).resp
      = ⟨400, some "Invalid email format", none, none⟩ ∧
    (signup envTest dbSample "u9" 9 500 ⟨none, none, some "longenough1"⟩).resp
      = ⟨400, some "Email and password are required", none, none⟩ := by
  refine ⟨by decide, ?_, by decide, ?_, ?_⟩
  · exact (c10_validation_order envTest dbSample "u9" 9 500
      ⟨none, some "a@b.com", some "short"⟩).2.2
      (by decide) (by decide) (by decide) (by decide) (by decide)
  · exact (c10_validation_order envTest dbM "u9" 9 500
      ⟨none, some "bademail", some "longenough1"⟩).2.1
      (by decide) (by decide) (by decide) (by decide)
  · exact (c10_validation_order envTest dbSample "u9" 9 500
      ⟨none, none, some "longenough1"⟩).1 (by decide)

end Fraudlr
